import Mathlib

/-!
Shallow embedding of the BD600 VFD spindle driver
(src/FluidNC/src/Spindles/BD600Spindle.cpp and BD600Spindle.h).

Frequencies are in centiHz and stored in uint16 fields of the driver;
the speed command argument is a uint32.  Machine arithmetic is modelled
on Nat with explicit mod where overflow or narrowing happens in C++:
the uint32 speed-percentage computation is taken mod 2^32 and the
uint8 payload bytes mod 256.

The VFD base class (VFDSpindle.h / VFDSpindle.cpp) is not part of the
sources; its speed-table collaborator (the member container named
speeds, plus shelfSpeeds and setupSpeeds) is modelled from the spec,
see the doc comments on SpeedTable, shelfSpeeds and setupSpeeds.
-/

namespace BD600

/-- Modelled from the spec: the speed-table collaborator owned by the
VFD base class (VFDSpindle.h, not in src/).  Per the spec, shelfSpeeds
publishes the RPM bounds to the table (so it is no longer empty) and
setupSpeeds refreshes the table keyed by the current maximum
frequency.  The entries list stands for the member container whose
size the code tests against zero. -/
structure SpeedTable where
  entries : List Nat
  published : Option (Nat × Nat)
  keyFreq : Option Nat

/-- Modelled from the spec: shelfSpeeds (VFD base class, not in src/)
publishes the RPM bounds (minRPM, maxRPM) to the speed table, filling
its entries so that the table is no longer empty. -/
def shelfSpeeds (minRPM maxRPM : Nat) (t : SpeedTable) : SpeedTable :=
  { t with entries := [minRPM, maxRPM], published := some (minRPM, maxRPM) }

/-- Modelled from the spec: setupSpeeds (VFD base class, not in src/)
refreshes the speed table keyed by the frequency it is given, leaving
the published RPM bounds untouched. -/
def setupSpeeds (maxFreq : Nat) (t : SpeedTable) : SpeedTable :=
  { t with keyFreq := some maxFreq }

def emptySpeedTable : SpeedTable :=
  { entries := [], published := none, keyFreq := none }

/-- Driver state: the BD600Spindle fields from BD600Spindle.h
(minFrequency, maxFrequency, numberPoles, numberPhases are uint16
members with defaults 100, 400, 4, 3) together with the inherited
fields used by this driver (maxRpmAt50Hz, slop, the speed table). -/
structure BDState where
  minFrequency : Nat
  maxFrequency : Nat
  numberPoles : Nat
  numberPhases : Nat
  maxRpmAt50Hz : Nat
  slop : Nat
  speeds : SpeedTable

/-- Construction-time state: header defaults min=100, max=400,
poles=4, phases=3; the inherited fields start with an empty speed
table (their numeric initial values live in the base class, not in
src/; the claims below never read them before they are written, so 0
is used). -/
def bdInit : BDState :=
  { minFrequency := 100, maxFrequency := 400, numberPoles := 4, numberPhases := 3,
    maxRpmAt50Hz := 0, slop := 0, speeds := emptySpeedTable }

/-- ModbusCommand: tx and rx lengths and the payload bytes msg[1]..msg[5]
(msg[0] is the device address, filled in by the Transport). -/
structure ModbusCommand where
  tx_length : Nat
  rx_length : Nat
  msg1 : Nat
  msg2 : Nat
  msg3 : Nat
  msg4 : Nat
  msg5 : Nat

def mc0 : ModbusCommand :=
  { tx_length := 0, rx_length := 0, msg1 := 0, msg2 := 0, msg3 := 0, msg4 := 0, msg5 := 0 }

/-- A response parser takes the raw response bytes (indexed, each a
byte) and the driver state, and returns success and the new state. -/
abbrev RespParser := (Nat → Nat) → BDState → Bool × BDState

/-- The 16-bit big-endian value at response offsets 4 and 5:
(response[4] << 8) | response[5] on uint8 bytes. -/
def word16 (r : Nat → Nat) : Nat :=
  r 4 % 256 * 256 + r 5 % 256

/-- BD600Spindle::updateRPM, first block: if (minFrequency > maxFrequency)
minFrequency = maxFrequency. -/
def clampMin (s : BDState) : BDState :=
  if s.maxFrequency < s.minFrequency then { s with minFrequency := s.maxFrequency } else s

/-- BD600Spindle::updateRPM, second block: if (speeds.size() == 0)
compute minRPM = minFrequency * 60 / 100, maxRPM = maxFrequency * 60 / 100
and call shelfSpeeds(minRPM, maxRPM). -/
def publishIfEmpty (s : BDState) : BDState :=
  if s.speeds.entries.length = 0 then
    { s with speeds := shelfSpeeds (s.minFrequency * 60 / 100) (s.maxFrequency * 60 / 100) s.speeds }
  else s

/-- BD600Spindle::updateRPM: clamp the invariant, publish RPM bounds if
the speed table is empty, setupSpeeds(maxFrequency), then
slop = max(maxFrequency / 40, 1). -/
def updateRPM (s : BDState) : BDState :=
  let s1 := clampMin s
  let s2 := publishIfEmpty s1
  let s3 := { s2 with speeds := setupSpeeds s2.maxFrequency s2.speeds }
  { s3 with slop := max (s3.maxFrequency / 40) 1 }

/-- BD600Spindle::set_speed_command: warn when dev_speed is non-zero and
outside [minFrequency, maxFrequency] (returned as the Bool), then build
the write frame [06, 30, 00, pctHigh, pctLow] with
speed_percentage = (dev_speed / maxFrequency) * 100 * 100 computed in
uint32 arithmetic; msg[4] is the uint8 narrowing of speed_percentage >> 8
and msg[5] is speed_percentage & 0xFF. -/
def set_speed_command (dev_speed : Nat) (s : BDState) (data : ModbusCommand) :
    Bool × ModbusCommand :=
  let warned := decide (dev_speed ≠ 0) &&
    (decide (dev_speed < s.minFrequency) || decide (s.maxFrequency < dev_speed))
  let speed_percentage := dev_speed / s.maxFrequency * 100 * 100 % 2 ^ 32
  (warned,
    { data with
      tx_length := 6, rx_length := 6,
      msg1 := 0x06, msg2 := 0x30, msg3 := 0x00,
      msg4 := speed_percentage / 2 ^ 8 % 256,
      msg5 := speed_percentage % 256 })

/-- Discovery step -1 parser: store the 16-bit value into maxFrequency,
always succeed. -/
def maxFreqParser : RespParser := fun r s =>
  (true, { s with maxFrequency := word16 r })

/-- Discovery step -2 parser: store the 16-bit value into minFrequency,
log the derived range, always succeed. -/
def minFreqParser : RespParser := fun r s =>
  (true, { s with minFrequency := word16 r })

/-- Discovery step -3 parser: store the 16-bit value into maxRpmAt50Hz,
then call updateRPM; always succeed. -/
def ratedRpmParser : RespParser := fun r s =>
  (true, updateRPM { s with maxRpmAt50Hz := word16 r })

/-- Discovery step -4 parser: the single-byte value response[4] is
stored into numberPoles and updateRPM runs only when
value <= 4 and value >= 2; otherwise the parser fails and the state is
untouched. -/
def poleParser : RespParser := fun r s =>
  let value := r 4 % 256
  if value ≤ 4 ∧ 2 ≤ value then
    (true, updateRPM { s with numberPoles := value })
  else
    (false, s)

/-- Discovery step -5 parser: log the acceleration value only. -/
def accelParser : RespParser := fun _ s => (true, s)

/-- Discovery step -6 parser: log the deceleration value only. -/
def decelParser : RespParser := fun _ s => (true, s)

/-- BD600Spindle::initialization_sequence: writes the read-request
header [01, 03, _, 00, 00] with tx and rx length 6 into the command,
then per step sets msg[3] to the register and returns the bound parser
(step -4 additionally shortens rx_length to 5).  Any other index falls
through to the default case and returns the null parser (none): the
sequence terminator. -/
def initialization_sequence (index : Int) (data : ModbusCommand) :
    ModbusCommand × Option RespParser :=
  let d := { data with
    tx_length := 6, rx_length := 6, msg1 := 0x01, msg2 := 0x03, msg4 := 0x00, msg5 := 0x00 }
  if index = -1 then ({ d with msg3 := 5 }, some maxFreqParser)
  else if index = -2 then ({ d with msg3 := 11 }, some minFreqParser)
  else if index = -3 then ({ d with msg3 := 144 }, some ratedRpmParser)
  else if index = -4 then ({ d with rx_length := 5, msg3 := 143 }, some poleParser)
  else if index = -5 then ({ d with msg3 := 14 }, some accelParser)
  else if index = -6 then ({ d with msg3 := 15 }, some decelParser)
  else (d, none)

/-- The status-poll parser: always reports success, touches nothing. -/
def statusOkParser : RespParser := fun _ s => (true, s)

/-- BD600Spindle::get_status_ok: emit the read frame
[04, 03, reg, 00, 00] for the current int cursor reg (msg[3] is the
uint8 narrowing of reg), then advance: reg++ when reg < 3, else
reg = 0.  Returns the written command, the new cursor and the bound
parser. -/
def get_status_ok (reg : Int) (data : ModbusCommand) :
    ModbusCommand × Int × RespParser :=
  let d := { data with
    tx_length := 6, rx_length := 6,
    msg1 := 0x04, msg2 := 0x03, msg3 := (reg % 256).toNat, msg4 := 0, msg5 := 0 }
  let reg2 := if reg < 3 then reg + 1 else 0
  (d, reg2, statusOkParser)

/-- A response carrying the 16-bit value v big-endian at offsets 4, 5. -/
def resp16 (v : Nat) : Nat → Nat := fun i =>
  if i = 4 then v / 256 % 256 else if i = 5 then v % 256 else 0

/-- A response carrying the single byte v at offset 4. -/
def respByte (v : Nat) : Nat → Nat := fun i =>
  if i = 4 then v % 256 else 0

/-- Run one discovery step: build the frame for the index, then feed
the response through the returned parser (a terminator index leaves
the state alone and reports failure-shaped (false, s), unused below). -/
def applyStep (index : Int) (r : Nat → Nat) (s : BDState) : Bool × BDState :=
  match (initialization_sequence index mc0).2 with
  | some p => p r s
  | none => (false, s)

/-- The end-to-end discovery run of the spec: steps -1..-4 with
responses maxFreq = 40000, minFreq = 12000, ratedRpm = 3000, poles = 2. -/
def discoveryRun (s : BDState) : BDState :=
  let s1 := (applyStep (-1) (resp16 40000) s).2
  let s2 := (applyStep (-2) (resp16 12000) s1).2
  let s3 := (applyStep (-3) (resp16 3000) s2).2
  ((applyStep (-4) (respByte 2) s3).2)

/-! Helper lemmas about updateRPM, shared by the theorems below. -/

theorem clampMin_minFrequency (s : BDState) :
    (clampMin s).minFrequency =
      if s.maxFrequency < s.minFrequency then s.maxFrequency else s.minFrequency := by
  unfold clampMin
  split <;> simp_all

theorem clampMin_maxFrequency (s : BDState) : (clampMin s).maxFrequency = s.maxFrequency := by
  unfold clampMin
  split <;> rfl

theorem clampMin_numberPoles (s : BDState) : (clampMin s).numberPoles = s.numberPoles := by
  unfold clampMin
  split <;> rfl

theorem clampMin_numberPhases (s : BDState) : (clampMin s).numberPhases = s.numberPhases := by
  unfold clampMin
  split <;> rfl

theorem clampMin_maxRpmAt50Hz (s : BDState) : (clampMin s).maxRpmAt50Hz = s.maxRpmAt50Hz := by
  unfold clampMin
  split <;> rfl

theorem clampMin_speeds (s : BDState) : (clampMin s).speeds = s.speeds := by
  unfold clampMin
  split <;> rfl

theorem publishIfEmpty_minFrequency (s : BDState) :
    (publishIfEmpty s).minFrequency = s.minFrequency := by
  unfold publishIfEmpty
  split <;> rfl

theorem publishIfEmpty_maxFrequency (s : BDState) :
    (publishIfEmpty s).maxFrequency = s.maxFrequency := by
  unfold publishIfEmpty
  split <;> rfl

theorem publishIfEmpty_numberPoles (s : BDState) :
    (publishIfEmpty s).numberPoles = s.numberPoles := by
  unfold publishIfEmpty
  split <;> rfl

theorem publishIfEmpty_numberPhases (s : BDState) :
    (publishIfEmpty s).numberPhases = s.numberPhases := by
  unfold publishIfEmpty
  split <;> rfl

theorem publishIfEmpty_maxRpmAt50Hz (s : BDState) :
    (publishIfEmpty s).maxRpmAt50Hz = s.maxRpmAt50Hz := by
  unfold publishIfEmpty
  split <;> rfl

theorem updateRPM_minFrequency (s : BDState) :
    (updateRPM s).minFrequency =
      if s.maxFrequency < s.minFrequency then s.maxFrequency else s.minFrequency := by
  unfold updateRPM
  simp [publishIfEmpty_minFrequency, clampMin_minFrequency]

theorem updateRPM_maxFrequency (s : BDState) :
    (updateRPM s).maxFrequency = s.maxFrequency := by
  unfold updateRPM
  simp [publishIfEmpty_maxFrequency, clampMin_maxFrequency]

theorem updateRPM_numberPoles (s : BDState) :
    (updateRPM s).numberPoles = s.numberPoles := by
  unfold updateRPM
  simp [publishIfEmpty_numberPoles, clampMin_numberPoles]

theorem updateRPM_numberPhases (s : BDState) :
    (updateRPM s).numberPhases = s.numberPhases := by
  unfold updateRPM
  simp [publishIfEmpty_numberPhases, clampMin_numberPhases]

theorem updateRPM_maxRpmAt50Hz (s : BDState) :
    (updateRPM s).maxRpmAt50Hz = s.maxRpmAt50Hz := by
  unfold updateRPM
  simp [publishIfEmpty_maxRpmAt50Hz, clampMin_maxRpmAt50Hz]

theorem updateRPM_slop (s : BDState) :
    (updateRPM s).slop = max (s.maxFrequency / 40) 1 := by
  unfold updateRPM
  simp [publishIfEmpty_maxFrequency, clampMin_maxFrequency]

theorem updateRPM_keyFreq (s : BDState) :
    (updateRPM s).speeds.keyFreq = some s.maxFrequency := by
  unfold updateRPM setupSpeeds
  simp [publishIfEmpty_maxFrequency, clampMin_maxFrequency]

theorem updateRPM_published_of_empty (s : BDState) (h : s.speeds.entries = []) :
    (updateRPM s).speeds.published =
      some ((if s.maxFrequency < s.minFrequency then s.maxFrequency else s.minFrequency)
              * 60 / 100,
            s.maxFrequency * 60 / 100) := by
  unfold updateRPM publishIfEmpty setupSpeeds shelfSpeeds
  simp [clampMin_speeds, h, clampMin_minFrequency, clampMin_maxFrequency]

theorem updateRPM_published_of_nonempty (s : BDState) (h : s.speeds.entries ≠ []) :
    (updateRPM s).speeds.published = s.speeds.published := by
  unfold updateRPM publishIfEmpty setupSpeeds
  simp [clampMin_speeds, List.length_eq_zero, h]

theorem updateRPM_entries_ne_nil (s : BDState) :
    (updateRPM s).speeds.entries ≠ [] := by
  unfold updateRPM publishIfEmpty setupSpeeds shelfSpeeds
  by_cases h : s.speeds.entries = [] <;>
    simp [clampMin_speeds, List.length_eq_zero, h]

/-- Recombining the two payload bytes of a 32-bit value gives the value
mod 2^16. -/
theorem bytes_recombine (n : Nat) : n / 2 ^ 8 % 256 * 256 + n % 256 = n % 65536 := by
  omega

/-- A second calibration run (after storing a new pole count) on top of
a first calibration from an empty table keeps the bounds published by
the first one. -/
theorem updateRPM_twice_published (u : BDState) (p : Nat) (h : u.speeds.entries = []) :
    (updateRPM { updateRPM u with numberPoles := p }).speeds.published =
      some ((if u.maxFrequency < u.minFrequency then u.maxFrequency else u.minFrequency)
              * 60 / 100,
            u.maxFrequency * 60 / 100) := by
  have h1 : (updateRPM ({ updateRPM u with numberPoles := p } : BDState)).speeds.published
      = ({ updateRPM u with numberPoles := p } : BDState).speeds.published :=
    updateRPM_published_of_nonempty _ (updateRPM_entries_ne_nil u)
  rw [h1]
  show (updateRPM u).speeds.published = _
  exact updateRPM_published_of_empty u h

/-- Claim C1 (amended): for every dev_speed and every state with
maxFrequency > 0, set_speed_command builds the register-write frame
[06, 30, 00, pctHigh, pctLow] with tx_length 6 and rx_length 6 whose
16-bit payload value equals ((dev_speed div maxFrequency) * 10000)
mod 2^16 — integer division before the multiplication — and the range
warning fires exactly when dev_speed is non-zero and outside
[minFrequency, maxFrequency], while the frame is built by the same
formula regardless. -/
theorem set_speed_command_spec (dev_speed : Nat) (s : BDState) (mc : ModbusCommand)
    (hmax : 0 < s.maxFrequency) :
    (set_speed_command dev_speed s mc).2.tx_length = 6 ∧
    (set_speed_command dev_speed s mc).2.rx_length = 6 ∧
    (set_speed_command dev_speed s mc).2.msg1 = 0x06 ∧
    (set_speed_command dev_speed s mc).2.msg2 = 0x30 ∧
    (set_speed_command dev_speed s mc).2.msg3 = 0 ∧
    (set_speed_command dev_speed s mc).2.msg4 * 256 + (set_speed_command dev_speed s mc).2.msg5
      = dev_speed / s.maxFrequency * 10000 % 65536 ∧
    ((set_speed_command dev_speed s mc).1 = true ↔
      dev_speed ≠ 0 ∧ (dev_speed < s.minFrequency ∨ s.maxFrequency < dev_speed)) := by
  refine ⟨rfl, rfl, rfl, rfl, rfl, ?_, ?_⟩
  · show dev_speed / s.maxFrequency * 100 * 100 % 2 ^ 32 / 2 ^ 8 % 256 * 256 +
      dev_speed / s.maxFrequency * 100 * 100 % 2 ^ 32 % 256 = _
    rw [bytes_recombine]
    rw [Nat.mod_mod_of_dvd _ (by norm_num : (65536 : Nat) ∣ 2 ^ 32)]
    norm_num [Nat.mul_assoc]
  · show (decide (dev_speed ≠ 0) &&
      (decide (dev_speed < s.minFrequency) || decide (s.maxFrequency < dev_speed))) = true ↔ _
    simp

/-- Claim C1 witness: at dev_speed = 400 in the construction-time state
(minFrequency 100, maxFrequency 400) the payload value is
(400 / 400) * 10000 mod 2^16 = 10000 and no warning fires. -/
theorem set_speed_command_spec_witness :
    0 < bdInit.maxFrequency ∧
    (set_speed_command 400 bdInit mc0).2.msg4 * 256 + (set_speed_command 400 bdInit mc0).2.msg5
      = 400 / bdInit.maxFrequency * 10000 % 65536 :=
  ⟨by decide, (set_speed_command_spec 400 bdInit mc0 (by decide)).2.2.2.2.2.1⟩

/-- Claim C1 counterexample: with minFrequency 100, maxFrequency 400 and
dev_speed 2800, the divided-then-scaled value is 70000, which does not
fit in 16 bits: the payload bytes encode 70000 mod 2^16 = 4464, not
(dev_speed div maxFrequency) * 10000 as the claim states. -/
theorem set_speed_command_counterexample :
    ¬ ((set_speed_command 2800 bdInit mc0).2.msg4 * 256 +
        (set_speed_command 2800 bdInit mc0).2.msg5
        = 2800 / bdInit.maxFrequency * 10000) := by
  decide

/-- Claim C2: the worked example maxFrequency = 40000 centiHz,
dev_speed = 20000 centiHz does NOT encode 5000 in the percentage
bytes: the code divides before scaling, 20000 / 40000 = 0, so both
percentage bytes are 0 (the claim and the intent of the code comment —
a percentage with two decimal places — require 5000). -/
theorem set_speed_half_encodes_zero :
    (set_speed_command 20000 { bdInit with maxFrequency := 40000 } mc0).2.msg4 = 0 ∧
    (set_speed_command 20000 { bdInit with maxFrequency := 40000 } mc0).2.msg5 = 0 ∧
    ¬ ((set_speed_command 20000 { bdInit with maxFrequency := 40000 } mc0).2.msg4 * 256 +
        (set_speed_command 20000 { bdInit with maxFrequency := 40000 } mc0).2.msg5 = 5000) := by
  decide

/-- Claim C6: after updateRPM the invariant minFrequency ≤ maxFrequency
holds, and when the incoming state violated it (minFrequency >
maxFrequency) the repaired state has minFrequency = maxFrequency. -/
theorem updateRPM_repairs_invariant (s : BDState) :
    (updateRPM s).minFrequency ≤ (updateRPM s).maxFrequency ∧
    (s.maxFrequency < s.minFrequency →
      (updateRPM s).minFrequency = (updateRPM s).maxFrequency) := by
  rw [updateRPM_minFrequency, updateRPM_maxFrequency]
  split <;> omega

/-- Claim C6 witness: a state with minFrequency 500 > maxFrequency 400
is repaired to minFrequency = maxFrequency. -/
theorem updateRPM_repairs_invariant_witness :
    ({ bdInit with minFrequency := 500, maxFrequency := 400 } : BDState).maxFrequency <
      ({ bdInit with minFrequency := 500, maxFrequency := 400 } : BDState).minFrequency ∧
    (updateRPM { bdInit with minFrequency := 500, maxFrequency := 400 }).minFrequency =
      (updateRPM { bdInit with minFrequency := 500, maxFrequency := 400 }).maxFrequency :=
  ⟨by decide,
   (updateRPM_repairs_invariant { bdInit with minFrequency := 500, maxFrequency := 400 }).2
     (by decide)⟩

/-- Claim C7: for any two states whose maxFrequency lies in [100, 4000]
centiHz, the slop recomputed by updateRPM equals
max(maxFrequency / 40, 1) (integer division), and it is monotonically
non-decreasing in maxFrequency. -/
theorem slop_formula_and_monotone (s t : BDState)
    (hs1 : 100 ≤ s.maxFrequency) (hs2 : s.maxFrequency ≤ 4000)
    (ht1 : 100 ≤ t.maxFrequency) (ht2 : t.maxFrequency ≤ 4000)
    (hmono : s.maxFrequency ≤ t.maxFrequency) :
    (updateRPM s).slop = max (s.maxFrequency / 40) 1 ∧
    (updateRPM s).slop ≤ (updateRPM t).slop := by
  rw [updateRPM_slop, updateRPM_slop]
  refine ⟨rfl, ?_⟩
  have h40 : s.maxFrequency / 40 ≤ t.maxFrequency / 40 := Nat.div_le_div_right hmono
  omega

/-- Claim C7 witness: maxFrequency 100 and 4000 give slop 2 and 100
respectively, in order. -/
theorem slop_formula_and_monotone_witness :
    100 ≤ ({ bdInit with maxFrequency := 100 } : BDState).maxFrequency ∧
    ({ bdInit with maxFrequency := 4000 } : BDState).maxFrequency ≤ 4000 ∧
    (updateRPM { bdInit with maxFrequency := 100 }).slop =
      max (({ bdInit with maxFrequency := 100 } : BDState).maxFrequency / 40) 1 ∧
    (updateRPM { bdInit with maxFrequency := 100 }).slop ≤
      (updateRPM { bdInit with maxFrequency := 4000 }).slop :=
  ⟨by decide, by decide,
   (slop_formula_and_monotone { bdInit with maxFrequency := 100 }
      { bdInit with maxFrequency := 4000 }
      (by decide) (by decide) (by decide) (by decide) (by decide)).1,
   (slop_formula_and_monotone { bdInit with maxFrequency := 100 }
      { bdInit with maxFrequency := 4000 }
      (by decide) (by decide) (by decide) (by decide) (by decide)).2⟩

/-- Claim C10: updateRPM never modifies maxFrequency, numberPoles,
numberPhases or maxRpmAt50Hz; the invariant repair only ever lowers
minFrequency down to maxFrequency (minFrequency is changed exactly in
the violated case, and never raised). -/
theorem updateRPM_frame_effect (s : BDState) :
    (updateRPM s).maxFrequency = s.maxFrequency ∧
    (updateRPM s).numberPoles = s.numberPoles ∧
    (updateRPM s).numberPhases = s.numberPhases ∧
    (updateRPM s).maxRpmAt50Hz = s.maxRpmAt50Hz ∧
    (updateRPM s).minFrequency =
      (if s.maxFrequency < s.minFrequency then s.maxFrequency else s.minFrequency) ∧
    (updateRPM s).minFrequency ≤ s.minFrequency := by
  refine ⟨updateRPM_maxFrequency s, updateRPM_numberPoles s, updateRPM_numberPhases s,
    updateRPM_maxRpmAt50Hz s, updateRPM_minFrequency s, ?_⟩
  rw [updateRPM_minFrequency]
  split <;> omega

/-- Claim C3: discovery step -4 reads register 143 with a single-byte
response (rx_length 5) and binds poleParser, which succeeds and stores
the byte into numberPoles exactly when it lies in [2, 4]; for any byte
outside [2, 4] it fails and returns the state unchanged. -/
theorem poleParser_range_check (r : Nat → Nat) (s : BDState) (mc : ModbusCommand) :
    (initialization_sequence (-4) mc).2 = some poleParser ∧
    (initialization_sequence (-4) mc).1.msg3 = 143 ∧
    (initialization_sequence (-4) mc).1.rx_length = 5 ∧
    (2 ≤ r 4 % 256 ∧ r 4 % 256 ≤ 4 →
      (poleParser r s).1 = true ∧ (poleParser r s).2.numberPoles = r 4 % 256) ∧
    (¬ (2 ≤ r 4 % 256 ∧ r 4 % 256 ≤ 4) → poleParser r s = (false, s)) := by
  refine ⟨rfl, rfl, rfl, ?_, ?_⟩
  · intro h
    have hc : r 4 % 256 ≤ 4 ∧ 2 ≤ r 4 % 256 := ⟨h.2, h.1⟩
    simp only [poleParser]
    rw [if_pos hc]
    exact ⟨rfl, updateRPM_numberPoles _⟩
  · intro h
    simp only [poleParser]
    rw [if_neg (fun hc => h ⟨hc.2, hc.1⟩)]

/-- Claim C3 witness: byte 2 is accepted and stored, byte 5 is rejected
with the state unchanged. -/
theorem poleParser_range_check_witness :
    (2 ≤ respByte 2 4 % 256 ∧ respByte 2 4 % 256 ≤ 4) ∧
    (poleParser (respByte 2) bdInit).1 = true ∧
    (poleParser (respByte 2) bdInit).2.numberPoles = respByte 2 4 % 256 ∧
    poleParser (respByte 5) bdInit = (false, bdInit) :=
  ⟨by decide,
   ((poleParser_range_check (respByte 2) bdInit mc0).2.2.2.1 (by decide)).1,
   ((poleParser_range_check (respByte 2) bdInit mc0).2.2.2.1 (by decide)).2,
   (poleParser_range_check (respByte 5) bdInit mc0).2.2.2.2 (by decide)⟩

/-- Claim C4: for every index outside {-1, ..., -6},
initialization_sequence returns the null parser (none) — the sequence
terminator, on which the Transport sends no frame and proceeds to
normal polling. -/
theorem init_sequence_terminator (index : Int) (mc : ModbusCommand)
    (h : index ∉ ([-1, -2, -3, -4, -5, -6] : List Int)) :
    (initialization_sequence index mc).2 = none := by
  simp only [List.mem_cons, List.not_mem_nil, or_false, not_or] at h
  obtain ⟨h1, h2, h3, h4, h5, h6⟩ := h
  simp [initialization_sequence, h1, h2, h3, h4, h5, h6]

/-- Claim C4 witness: index 0 terminates the sequence. -/
theorem init_sequence_terminator_witness :
    (0 : Int) ∉ ([-1, -2, -3, -4, -5, -6] : List Int) ∧
    (initialization_sequence 0 mc0).2 = none :=
  ⟨by decide, init_sequence_terminator 0 mc0 (by decide)⟩

/-- Claim C5: starting from a state with an empty speed table and the
construction defaults minFrequency 100, maxFrequency 400, poles 4,
running discovery steps -1..-4 with responses maxFreq 40000,
minFreq 12000, ratedRpm 3000, poles 2 publishes exactly
minRPM = 7200 and maxRPM = 24000. -/
theorem discovery_publishes_bounds (s : BDState)
    (hmin : s.minFrequency = 100) (hmax : s.maxFrequency = 400)
    (hpoles : s.numberPoles = 4) (hempty : s.speeds.entries = []) :
    (discoveryRun s).speeds.published = some (7200, 24000) := by
  clear hmin hmax hpoles
  have hw1 : word16 (resp16 40000) = 40000 := by decide
  have hw2 : word16 (resp16 12000) = 12000 := by decide
  have hw3 : word16 (resp16 3000) = 3000 := by decide
  have hv : respByte 2 4 % 256 = 2 := by decide
  show (poleParser (respByte 2)
      ((ratedRpmParser (resp16 3000)
        ((minFreqParser (resp16 12000)
          ((maxFreqParser (resp16 40000) s).2)).2)).2)).2.speeds.published = some (7200, 24000)
  simp only [maxFreqParser, minFreqParser, ratedRpmParser, poleParser, hw1, hw2, hw3, hv]
  rw [if_pos (by norm_num : (2 : Nat) ≤ 4 ∧ (2 : Nat) ≤ 2)]
  dsimp only
  refine (updateRPM_twice_published _ 2 ?_).trans ?_
  · exact hempty
  · show some ((if (40000 : Nat) < 12000 then (40000 : Nat) else (12000 : Nat)) * 60 / 100,
        (40000 : Nat) * 60 / 100) = some (7200, 24000)
    decide

/-- Claim C5 witness: the run from the construction-time state. -/
theorem discovery_publishes_bounds_witness :
    bdInit.minFrequency = 100 ∧ bdInit.maxFrequency = 400 ∧ bdInit.numberPoles = 4 ∧
    bdInit.speeds.entries = [] ∧
    (discoveryRun bdInit).speeds.published = some (7200, 24000) :=
  ⟨rfl, rfl, rfl, rfl, discovery_publishes_bounds bdInit rfl rfl rfl rfl⟩

/-- Claim C8: updateRPM publishes the RPM bounds
(minFrequency * 60 / 100, maxFrequency * 60 / 100) — with the
post-repair minFrequency — exactly when the speed table is empty;
when the table is non-empty the published bounds are untouched; every
call rekeys the table by the current maxFrequency and recomputes slop;
and after any call the table is non-empty, so the bounds are published
at most once. -/
theorem publish_bounds_once (s : BDState) :
    (s.speeds.entries = [] →
      (updateRPM s).speeds.published =
        some ((if s.maxFrequency < s.minFrequency then s.maxFrequency
               else s.minFrequency) * 60 / 100,
              s.maxFrequency * 60 / 100)) ∧
    (s.speeds.entries ≠ [] →
      (updateRPM s).speeds.published = s.speeds.published) ∧
    (updateRPM s).speeds.keyFreq = some s.maxFrequency ∧
    (updateRPM s).slop = max (s.maxFrequency / 40) 1 ∧
    (updateRPM s).speeds.entries ≠ [] :=
  ⟨updateRPM_published_of_empty s, updateRPM_published_of_nonempty s,
   updateRPM_keyFreq s, updateRPM_slop s, updateRPM_entries_ne_nil s⟩

/-- Claim C8 witness: from the construction-time state the first
calibration publishes the bounds; the second calibration leaves the
published bounds untouched. -/
theorem publish_bounds_once_witness :
    bdInit.speeds.entries = [] ∧
    (updateRPM bdInit).speeds.published =
      some ((if bdInit.maxFrequency < bdInit.minFrequency then bdInit.maxFrequency
             else bdInit.minFrequency) * 60 / 100,
            bdInit.maxFrequency * 60 / 100) ∧
    (updateRPM bdInit).speeds.entries ≠ [] ∧
    (updateRPM (updateRPM bdInit)).speeds.published = (updateRPM bdInit).speeds.published :=
  ⟨rfl, (publish_bounds_once bdInit).1 rfl, (publish_bounds_once bdInit).2.2.2.2,
   (publish_bounds_once (updateRPM bdInit)).2.1 ((publish_bounds_once bdInit).2.2.2.2)⟩

/-- Claim C9: get_status_ok emits the read frame [04, 03, cursor, 00, 00]
with tx and rx length 6 for the current cursor value in [0, 3],
advances the cursor by one, wrapping to 0 after 3, and its bound
parser reports success for every response. -/
theorem get_status_ok_cycles (reg : Int) (mc : ModbusCommand)
    (h0 : 0 ≤ reg) (h3 : reg ≤ 3) :
    (get_status_ok reg mc).1.tx_length = 6 ∧
    (get_status_ok reg mc).1.rx_length = 6 ∧
    (get_status_ok reg mc).1.msg1 = 0x04 ∧
    (get_status_ok reg mc).1.msg2 = 0x03 ∧
    (get_status_ok reg mc).1.msg3 = reg.toNat ∧
    (get_status_ok reg mc).1.msg4 = 0 ∧
    (get_status_ok reg mc).1.msg5 = 0 ∧
    (reg < 3 → (get_status_ok reg mc).2.1 = reg + 1) ∧
    (reg = 3 → (get_status_ok reg mc).2.1 = 0) ∧
    (get_status_ok reg mc).2.2 = statusOkParser ∧
    (∀ r u, statusOkParser r u = (true, u)) := by
  refine ⟨rfl, rfl, rfl, rfl, ?_, rfl, rfl, ?_, ?_, rfl, fun r u => rfl⟩
  · show (reg % 256).toNat = reg.toNat
    congr 1
    omega
  · intro h
    show (if reg < 3 then reg + 1 else 0) = reg + 1
    rw [if_pos h]
  · intro h
    show (if reg < 3 then reg + 1 else 0) = 0
    rw [if_neg (by omega)]

/-- Claim C9 witness: cursor 2 emits register 2 and advances to 3. -/
theorem get_status_ok_cycles_witness :
    (0 : Int) ≤ 2 ∧ (2 : Int) ≤ 3 ∧
    (get_status_ok 2 mc0).1.msg3 = (2 : Int).toNat ∧
    (get_status_ok 2 mc0).2.1 = 2 + 1 :=
  ⟨by decide, by decide,
   (get_status_ok_cycles 2 mc0 (by decide) (by decide)).2.2.2.2.1,
   (get_status_ok_cycles 2 mc0 (by decide) (by decide)).2.2.2.2.2.2.2.1 (by decide)⟩

end BD600
